import Mathlib

/-!
Verification development for the libcontainer-rs container runtime library.

The definitions below are a shallow embedding of the Rust sources:
  - src/ipc.rs        : the typed message protocol (ExecType, Command, Action, Message)
  - src/container.rs  : the host-side supervisor (Container)
  - src/syscall.rs    : the syscall facade (create_container, exec, UserInfo)
  - src/filesystem.rs : the overlay storage driver (OverlayDriver)
  - src/runtime.rs    : the in-container runtime (Runtime)

Side-effecting operations are embedded as pure functions that return the
trace of effects (messages sent, signals delivered, directories created,
kernel mounts performed) they would issue; fallible operations return
Option, with none standing for the Rust panic of a .unwrap() call.
-/

namespace LibContainer

/-! Part 1: the IPC protocol, src/ipc.rs.
src/syscall.rs declares structurally identical ExecType and Command types;
they are shared here. -/

namespace ipc

/-- Execution type for a new process inside the container (src/ipc.rs). -/
inductive ExecType where
  | FORK
  | REPLACE
deriving DecidableEq

/-- A command represents a process to be executed inside the container
(src/ipc.rs). -/
structure Command where
  command : String
  args : List String
  env : List String
  exec_type : ExecType
deriving DecidableEq

/-- Actions that can be performed by the container (src/ipc.rs). -/
inductive Action where
  | STOP
deriving DecidableEq

/-- A message to be sent to the container (src/ipc.rs). -/
inductive Message where
  | ACTION (a : Action)
  | COMMAND (c : Command)
deriving DecidableEq

end ipc

namespace syscall

/-- src/syscall.rs declares its own Command, identical to ipc::Command. -/
abbrev Command := ipc.Command

end syscall

/-! Part 2: signals and clone flags. Clone flags are modelled as the Linux
bit masks, combined with bitwise or, exactly as nix CloneFlags does. -/

/-- The signals this code base delivers or configures. -/
inductive Signal where
  | SIGTERM
  | SIGKILL
  | SIGCHLD
deriving DecidableEq

/-- Linux CLONE_NEWNS flag bit. -/
def CLONE_NEWNS : Nat := 0x00020000

/-- Linux CLONE_NEWUTS flag bit. -/
def CLONE_NEWUTS : Nat := 0x04000000

/-- Linux CLONE_NEWIPC flag bit. -/
def CLONE_NEWIPC : Nat := 0x08000000

/-- Linux CLONE_NEWUSER flag bit. -/
def CLONE_NEWUSER : Nat := 0x10000000

/-- Linux CLONE_NEWPID flag bit. -/
def CLONE_NEWPID : Nat := 0x20000000

/-- Linux CLONE_NEWNET flag bit. -/
def CLONE_NEWNET : Nat := 0x40000000

/-- The three arguments of a clone call that the claims are about: the size
of the stack buffer handed to clone, the namespace flag word, and the
child-exit signal (None when the caller passes no signal). -/
structure CloneSpec where
  stackSize : Nat
  flags : Nat
  exitSignal : Option Signal
deriving DecidableEq

namespace syscall

/-- Stack size constant of create_container, src/syscall.rs line 131:
4 * 1024 * 1024 bytes. -/
def create_container_STACK_SIZE : Nat := 4 * 1024 * 1024

/-- Clone flags of create_container, src/syscall.rs line 133. -/
def create_container_clone_flags : Nat :=
  CLONE_NEWNS ||| CLONE_NEWUTS ||| CLONE_NEWIPC ||| CLONE_NEWPID ||| CLONE_NEWNET

/-- The clone call performed by create_container, src/syscall.rs lines
127-137: 4 MiB stack, five namespace flags, Some(SIGCHLD) exit signal. -/
def create_container : CloneSpec :=
  { stackSize := create_container_STACK_SIZE
    flags := create_container_clone_flags
    exitSignal := some Signal.SIGCHLD }

end syscall

/-! Part 3: the Container supervisor, src/container.rs. -/

namespace Container

/-- Container::STACK_SIZE, src/container.rs line 50: 8 * 1024 * 1024 bytes. -/
def STACK_SIZE : Nat := 8 * 1024 * 1024

/-- Container::clone_flags, src/container.rs lines 158-160: the five
namespace flags plus CLONE_NEWUSER. -/
def clone_flags : Nat :=
  CLONE_NEWNS ||| CLONE_NEWUTS ||| CLONE_NEWIPC ||| CLONE_NEWPID |||
    CLONE_NEWNET ||| CLONE_NEWUSER

/-- The clone call performed by Container::start, src/container.rs lines
64-77: stack of Container::STACK_SIZE bytes, Container::clone_flags, and
None as the fourth clone argument (no child-exit signal). -/
def startCloneSpec : CloneSpec :=
  { stackSize := STACK_SIZE
    flags := clone_flags
    exitSignal := none }

/-- Container::execute_in_container, src/container.rs lines 104-114: builds
the Command with env.unwrap_or(vec![]) and exec_type.unwrap_or(ExecType::FORK)
and sends it as a COMMAND message on the producer channel. The returned
value is the message sent. -/
def execute_in_container (command : String) (args : List String)
    (env : Option (List String)) (exec_type : Option ipc.ExecType) :
    ipc.Message :=
  ipc.Message.COMMAND
    { command := command
      args := args
      env := env.getD []
      exec_type := exec_type.getD ipc.ExecType.FORK }

/-- One observable effect of Container::stop. -/
inductive StopEffect where
  | sendMessage (m : ipc.Message)
  | signalPid (pid : Nat) (sig : Signal)
  | umountFs
  | waitPid (pid : Nat)
deriving DecidableEq

/-- The supervisor state that Container::stop reads: the optional container
PID and the list of forked PIDs tracked by the supervisor. -/
structure StopState where
  container_pid : Option Nat
  container_forked_pids : List Nat
deriving DecidableEq

/-- Container::stop, src/container.rs lines 79-96: sends ACTION(STOP) on the
producer channel, SIGTERMs every forked pid, SIGTERMs the container pid when
it is known, then unmounts the filesystem. The returned list is the effect
trace in program order; there is no wait in it. -/
def stop (s : StopState) : List StopEffect :=
  [StopEffect.sendMessage (ipc.Message.ACTION ipc.Action.STOP)]
    ++ s.container_forked_pids.map (fun pid => StopEffect.signalPid pid Signal.SIGTERM)
    ++ (match s.container_pid with
        | some pid => [StopEffect.signalPid pid Signal.SIGTERM]
        | none => [])
    ++ [StopEffect.umountFs]

/-- Recognizes a SIGKILL delivery in a Container::stop effect trace. -/
def StopEffect.isSigkill : StopEffect → Bool
  | StopEffect.signalPid _ Signal.SIGKILL => true
  | _ => false

/-- Recognizes a wait in a Container::stop effect trace. -/
def StopEffect.isWait : StopEffect → Bool
  | StopEffect.waitPid _ => true
  | _ => false

end Container

/-! Part 4: CString conversion and the two exec paths. -/

/-- True when the string contains a NUL byte. Rust CString::new fails
exactly on inputs containing an interior NUL, and since the inputs here
carry no terminator, that means any NUL at all. -/
def containsNul (s : String) : Bool :=
  s.data.any (fun c => c.val == 0)

/-- Model of Rust CString::new on a String: none models the NulError the
callers unwrap (a panic); on NUL-free input the bytes pass unchanged. -/
def cstringNew (s : String) : Option String :=
  if containsNul s then none else some s

/-- Conversion of a string vector to CStrings, one element at a time with
an .unwrap() on each, as both exec paths do; none models the first panic. -/
def cstringList : List String → Option (List String)
  | [] => some []
  | a :: l =>
      match cstringNew a with
      | none => none
      | some ca =>
          match cstringList l with
          | none => none
          | some cl => some (ca :: cl)

/-- The execvpe call finally issued by an exec path: the file looked up, the
argv vector and the envp vector. Both the FORK and the REPLACE arm of each
exec path issue the same execvpe triple; they differ only in forking first. -/
structure ExecCall where
  file : String
  argv : List String
  env : List String
deriving DecidableEq

/-- True when any of the strings of the command (command, args, env) has a
NUL byte, so some CString::new .unwrap() in the exec paths panics. -/
def ipc.Command.hasInteriorNul (c : ipc.Command) : Bool :=
  containsNul c.command || c.args.any containsNul || c.env.any containsNul

namespace syscall

/-- syscall::exec, src/syscall.rs lines 96-125, up to the execvpe call: the
command is converted to the filename CString, argv starts as vec![filename]
and every converted arg is pushed after it, env is the converted env list.
Both match arms call execvpe(filename, args, env). none is the panic of an
.unwrap() on a NUL. -/
def exec_call (c : Command) : Option ExecCall := do
  let filename ← cstringNew c.command
  let args ← cstringList c.args
  let env ← cstringList c.env
  pure { file := filename, argv := filename :: args, env := env }

end syscall

namespace Container

/-- Container::exec, src/container.rs lines 127-156, up to the execvpe call:
filename, args and env are converted exactly as in syscall::exec, but argv
is the converted args vector alone; the filename is NOT prepended. Both
match arms call execvpe(filename, args, env). -/
def exec_call (c : ipc.Command) : Option ExecCall := do
  let filename ← cstringNew c.command
  let args ← cstringList c.args
  let env ← cstringList c.env
  pure { file := filename, argv := args, env := env }

end Container

/-! Part 5: the overlay storage driver, src/filesystem.rs. Paths are
modelled as strings; Path::join appends a separator and the component, and
Path::display is the identity on these strings. -/

namespace filesystem

/-- The mount flags this code base uses. -/
inductive MountFlag where
  | NOSUID
  | NODEV
  | NOEXEC
deriving DecidableEq

/-- One kernel mount as issued through sys_mount Mount::new: source, the
mountpoint, the filesystem type, the flags and the option data string. -/
structure KernelMount where
  source : String
  mountpoint : String
  fstype : String
  flags : List MountFlag
  data : Option String
deriving DecidableEq

/-- One observable filesystem effect of OverlayDriver::mount. -/
inductive FsEffect where
  | create_dir (path : String)
  | kernel_mount (m : KernelMount)
deriving DecidableEq

/-- Recognizes a directory creation in a mount effect trace. -/
def FsEffect.isCreateDir : FsEffect → Bool
  | FsEffect.create_dir _ => true
  | _ => false

/-- Recognizes a kernel mount in a mount effect trace. -/
def FsEffect.isKernelMount : FsEffect → Bool
  | FsEffect.kernel_mount _ => true
  | _ => false

/-- Path::join on the string model of paths. -/
def pathJoin (base child : String) : String := base ++ "/" ++ child

/-- The overlayfs driver, src/filesystem.rs lines 70-74: the ordered layer
paths, the target directory, and the optional active-mount handle. -/
structure OverlayDriver where
  layers : List String
  target : String
  mount : Option KernelMount
deriving DecidableEq

namespace OverlayDriver

/-- OverlayDriver::MERGE_DIR, src/filesystem.rs line 78. -/
def MERGE_DIR : String := "merge"

/-- OverlayDriver::UPPER_DIR, src/filesystem.rs line 79. -/
def UPPER_DIR : String := "upper"

/-- OverlayDriver::WORK_DIR, src/filesystem.rs line 80. -/
def WORK_DIR : String := "workdir"

/-- The kernel mount built by OverlayDriver::mount, src/filesystem.rs lines
137-150: source overlay, mountpoint target/merge, type overlay, flag NOSUID,
and the data string formatted as lowerdir=<layers joined by colon>,
upperdir=<target/upper>,workdir=<target/workdir> with comma separators. -/
def overlayMountOf (layers : List String) (target : String) : KernelMount :=
  { source := "overlay"
    mountpoint := pathJoin target MERGE_DIR
    fstype := "overlay"
    flags := [MountFlag.NOSUID]
    data := some ("lowerdir=" ++ String.intercalate ":" layers
      ++ ",upperdir=" ++ pathJoin target UPPER_DIR
      ++ ",workdir=" ++ pathJoin target WORK_DIR) }

/-- OverlayDriver::mount, src/filesystem.rs lines 120-153, parameterized by
which paths currently exist on disk. In program order it creates the target
when missing, then each of merge, upper and workdir when missing, then
performs the kernel overlay mount and stores the handle. The Rust method is
named mount; that name is taken by the handle field here, hence mount_run.
The driver never inspects the existing handle: there is no mounted-state
check before mounting again. -/
def mount_run (d : OverlayDriver) (pathExists : String → Bool) :
    List FsEffect × OverlayDriver :=
  let e_target := if pathExists d.target then [] else [FsEffect.create_dir d.target]
  let mergedir := pathJoin d.target MERGE_DIR
  let upperdir := pathJoin d.target UPPER_DIR
  let workdir := pathJoin d.target WORK_DIR
  let e_merge := if pathExists mergedir then [] else [FsEffect.create_dir mergedir]
  let e_upper := if pathExists upperdir then [] else [FsEffect.create_dir upperdir]
  let e_work := if pathExists workdir then [] else [FsEffect.create_dir workdir]
  let m := overlayMountOf d.layers d.target
  (e_target ++ e_merge ++ e_upper ++ e_work ++ [FsEffect.kernel_mount m],
   { d with mount := some m })

end OverlayDriver

end filesystem

/-! Part 6: user information, src/syscall.rs lines 139-169. The system
user database behind getpwnam is modelled as a lookup function from names
to optional passwd entries; getpwnam returns NULL exactly when the lookup
is none. -/

/-- A passwd entry as returned by getpwnam. -/
structure PasswdEntry where
  pw_name : String
  pw_passwd : String
  pw_uid : Nat
  pw_gid : Nat
  pw_gecos : String
  pw_dir : String
  pw_shell : String
deriving DecidableEq

/-- UserInfo, src/syscall.rs lines 139-148. -/
structure UserInfo where
  name : String
  passwd : String
  uid : Nat
  gid : Nat
  gecos : String
  home : String
  shell : String
deriving DecidableEq

/-- The possible outcomes of UserInfo::from_name. Ok and Err are the two
Result values of the Rust signature; panicked models the .unwrap() on the
CString conversion of the name; nullPointerDeref marks the undefined
behavior of dereferencing the NULL pointer getpwnam returns for a missing
name (src/syscall.rs lines 157-167 dereference user_info without a NULL
check). -/
inductive FromNameResult where
  | Ok (u : UserInfo)
  | Err (msg : String)
  | panicked
  | nullPointerDeref
deriving DecidableEq

/-- UserInfo::from_name, src/syscall.rs lines 152-169: converts the name to
a CString (unwrap), calls getpwnam, then unconditionally dereferences the
returned pointer to build the UserInfo, and returns Ok. No branch returns
Err. -/
def UserInfo.from_name (getpwnam : String → Option PasswdEntry)
    (name : String) : FromNameResult :=
  if containsNul name then FromNameResult.panicked
  else
    match getpwnam name with
    | some e =>
        FromNameResult.Ok
          { name := e.pw_name
            passwd := e.pw_passwd
            uid := e.pw_uid
            gid := e.pw_gid
            gecos := e.pw_gecos
            home := e.pw_dir
            shell := e.pw_shell }
    | none => FromNameResult.nullPointerDeref

/-! Part 7: the runtime, src/runtime.rs. -/

namespace runtime

/-- RuntimeOptions, src/runtime.rs lines 41-47. -/
structure RuntimeOptions where
  hostname : Option String
  user : String
  group : String
  cwd : String
deriving DecidableEq

/-- RuntimeOptions::default, src/runtime.rs lines 50-57. -/
def RuntimeOptions.default : RuntimeOptions :=
  { hostname := none
    user := "root"
    group := "root"
    cwd := "/" }

/-- The Runtime fields the claims are about, src/runtime.rs lines 60-69.
The storage driver and the consumer channel are process resources carried
by the Rust struct and are not needed by these claims. -/
structure Runtime where
  id : String
  hostname : String
  runtime_options : RuntimeOptions
deriving DecidableEq

/-- Runtime::new, src/runtime.rs lines 78-89: the hostname is the hostname
option when present, otherwise the first 12 characters of the id
(id.chars().take(12).collect()). -/
def Runtime.new (id : String) (runtime_options : RuntimeOptions) : Runtime :=
  { id := id
    hostname := runtime_options.hostname.getD (String.mk (id.data.take 12))
    runtime_options := runtime_options }

/-- One observable effect of Runtime::setup_hostname. -/
inductive HostnameEffect where
  | sethostname (h : String)
  | write_file (path : String) (content : String)
deriving DecidableEq

/-- Runtime::setup_hostname, src/runtime.rs lines 153-160: sethostname with
the hostname, then create /etc/hostname (File::create truncates) and write
exactly the hostname bytes as its content. -/
def Runtime.setup_hostname (r : Runtime) : List HostnameEffect :=
  [HostnameEffect.sethostname r.hostname,
   HostnameEffect.write_file "/etc/hostname" r.hostname]

/-- The Rust format string k=v used by inject_env_variables. -/
def formatKV (k v : String) : String := k ++ "=" ++ v

/-- Runtime::inject_env_variables, src/runtime.rs lines 140-151: pushes the
seven injected entries one by one onto the user-supplied environment, in
program order. The info argument is the record UserInfo::from_name returns
for runtime_options.user (the user database is external state); the code
unwraps that lookup before pushing. -/
def Runtime.inject_env_variables (r : Runtime) (info : UserInfo)
    (environment : List String) : List String :=
  (((((((environment.concat
    (formatKV "container" "libcontainer-rs")).concat
    (formatKV "container_uuid" r.id)).concat
    (formatKV "HOME" info.home)).concat
    (formatKV "SHELL" info.shell)).concat
    (formatKV "USER" "root")).concat
    (formatKV "HOSTNAME" r.hostname)).concat
    (formatKV "PATH" "/usr/local/sbin:/usr/local/bin:/usr/sbin:/usr/bin:/sbin:/bin"))

/-- Runtime::exec_command, src/runtime.rs lines 129-138: rebuilds the
Command with the injected environment and hands it to syscall::exec. -/
def Runtime.exec_command (r : Runtime) (info : UserInfo)
    (command : ipc.Command) : ipc.Command :=
  { command := command.command
    args := command.args
    env := r.inject_env_variables info command.env
    exec_type := command.exec_type }

end runtime

/-! Part 8: helper lemmas shared by the claim theorems. -/

/-- cstringList succeeds exactly on NUL-free vectors and passes them
through unchanged. -/
theorem cstringList_eq (l : List String) :
    cstringList l = if l.any containsNul then none else some l := by
  induction l with
  | nil => simp [cstringList]
  | cons a l ih =>
      simp only [cstringList, cstringNew, List.any_cons]
      by_cases h : containsNul a = true
      · simp [h]
      · by_cases h2 : l.any containsNul = true
        · simp [h, h2, ih]
        · simp [h, h2, ih]

/-! Part 9: the claims. -/

/-- C1: in Container::execute_in_container, an absent env defaults to the
empty environment list, as claimed; but an absent exec_type defaults to
ExecType::FORK, not REPLACE. At the concrete call with both options absent
the message sent carries exec_type FORK and is not the REPLACE message the
claim requires. -/
theorem C1_default_exec_type_is_FORK_not_REPLACE :
    Container.execute_in_container "sh" ["-c"] none none
      = ipc.Message.COMMAND
          { command := "sh", args := ["-c"], env := [],
            exec_type := ipc.ExecType.FORK }
    ∧ ¬ (Container.execute_in_container "sh" ["-c"] none none
      = ipc.Message.COMMAND
          { command := "sh", args := ["-c"], env := [],
            exec_type := ipc.ExecType.REPLACE }) := by
  constructor
  · rfl
  · decide

/-- C1 (amended): for every call to execute_in_container, an absent env is
the same as passing the empty list, and an absent exec_type is the same as
passing ExecType::FORK; with both absent the Command message carries the
empty environment and exec_type FORK. -/
theorem C1_execute_in_container_defaults (command : String)
    (args : List String) (env : Option (List String))
    (exec_type : Option ipc.ExecType) :
    Container.execute_in_container command args none exec_type
      = Container.execute_in_container command args (some []) exec_type
    ∧ Container.execute_in_container command args env none
      = Container.execute_in_container command args env (some ipc.ExecType.FORK)
    ∧ Container.execute_in_container command args none none
      = ipc.Message.COMMAND
          { command := command, args := args, env := [],
            exec_type := ipc.ExecType.FORK } :=
  ⟨rfl, rfl, rfl⟩

/-- C2: Container::stop sends ACTION(STOP) first, but the signal it then
delivers to the container process is SIGTERM, not SIGKILL: at the concrete
state with container pid 7 and no forked pids, the trace is exactly send,
SIGTERM to 7, umount, and contains no SIGKILL delivery. -/
theorem C2_stop_sends_SIGTERM_not_SIGKILL :
    Container.stop { container_pid := some 7, container_forked_pids := [] }
      = [Container.StopEffect.sendMessage (ipc.Message.ACTION ipc.Action.STOP),
         Container.StopEffect.signalPid 7 Signal.SIGTERM,
         Container.StopEffect.umountFs]
    ∧ (Container.stop
        { container_pid := some 7, container_forked_pids := [] }).any
        Container.StopEffect.isSigkill = false := by
  constructor
  · rfl
  · rfl

/-- C2 (amended): Container::stop sends the ACTION(STOP) message, then
delivers SIGTERM (not SIGKILL) to each forked pid and to the container
process, then unmounts the filesystem; its effect trace contains no SIGKILL
and no wait on the child. -/
theorem C2_stop_trace (p : Nat) (fps : List Nat) :
    Container.stop { container_pid := some p, container_forked_pids := fps }
      = Container.StopEffect.sendMessage (ipc.Message.ACTION ipc.Action.STOP)
          :: (fps.map fun q => Container.StopEffect.signalPid q Signal.SIGTERM)
          ++ [Container.StopEffect.signalPid p Signal.SIGTERM,
              Container.StopEffect.umountFs]
    ∧ (Container.stop
        { container_pid := some p, container_forked_pids := fps }).any
        Container.StopEffect.isSigkill = false
    ∧ (Container.stop
        { container_pid := some p, container_forked_pids := fps }).any
        Container.StopEffect.isWait = false := by
  refine ⟨?_, ?_, ?_⟩
  · simp [Container.stop]
  · simp [Container.stop, Container.StopEffect.isSigkill]
  · simp [Container.stop, Container.StopEffect.isWait]

/-- C3: OverlayDriver::mount never inspects the active-mount handle, so a
second call while mounted does not return an error: at a concrete driver
whose handle is already Some and on a filesystem where all four directories
exist, the call performs another kernel overlay mount (its effect trace is
exactly that mount). -/
theorem C3_second_mount_still_mounts :
    (filesystem.OverlayDriver.mk ["/tmp"] "/t"
        (some (filesystem.OverlayDriver.overlayMountOf ["/tmp"] "/t"))).mount
      = some (filesystem.OverlayDriver.overlayMountOf ["/tmp"] "/t")
    ∧ (filesystem.OverlayDriver.mount_run
        (filesystem.OverlayDriver.mk ["/tmp"] "/t"
          (some (filesystem.OverlayDriver.overlayMountOf ["/tmp"] "/t")))
        (fun _ => true)).1
      = [filesystem.FsEffect.kernel_mount
          (filesystem.OverlayDriver.overlayMountOf ["/tmp"] "/t")]
    ∧ ((filesystem.OverlayDriver.mount_run
        (filesystem.OverlayDriver.mk ["/tmp"] "/t"
          (some (filesystem.OverlayDriver.overlayMountOf ["/tmp"] "/t")))
        (fun _ => true)).1).any filesystem.FsEffect.isKernelMount = true :=
  ⟨rfl, rfl, rfl⟩

/-- C3 (amended): OverlayDriver::mount has no mounted-state guard: its
behavior does not depend on the active-mount handle at all, it always ends
by performing the kernel overlay mount, and it overwrites the handle with
the new mount. -/
theorem C3_mount_ignores_handle (layers : List String) (target : String)
    (handle : Option filesystem.KernelMount) (pathExists : String → Bool) :
    (filesystem.OverlayDriver.mount_run
        (filesystem.OverlayDriver.mk layers target handle) pathExists).1
      = (filesystem.OverlayDriver.mount_run
          (filesystem.OverlayDriver.mk layers target none) pathExists).1
    ∧ (filesystem.OverlayDriver.mount_run
        (filesystem.OverlayDriver.mk layers target handle) pathExists).1.getLast?
      = some (filesystem.FsEffect.kernel_mount
          (filesystem.OverlayDriver.overlayMountOf layers target))
    ∧ (filesystem.OverlayDriver.mount_run
        (filesystem.OverlayDriver.mk layers target handle) pathExists).2
      = filesystem.OverlayDriver.mk layers target
          (some (filesystem.OverlayDriver.overlayMountOf layers target)) := by
  refine ⟨rfl, ?_, rfl⟩
  simp [filesystem.OverlayDriver.mount_run, List.getLast?_concat]

/-- C5: for every OverlayDriver and every disk state, mount creates exactly
the missing directories among target, target/merge, target/upper and
target/workdir, in that order; exactly one kernel mount is performed, it is
the last effect, and it is the overlay mount at target/merge with flag
NOSUID and data string lowerdir=<layers colon-joined>,upperdir=<target>/upper,workdir=<target>/workdir. -/
theorem C5_overlay_mount_contract (layers : List String) (target : String)
    (handle : Option filesystem.KernelMount) (pathExists : String → Bool) :
    ((filesystem.OverlayDriver.mount_run
        (filesystem.OverlayDriver.mk layers target handle) pathExists).1.filter
        filesystem.FsEffect.isCreateDir
      = ([target,
          filesystem.pathJoin target filesystem.OverlayDriver.MERGE_DIR,
          filesystem.pathJoin target filesystem.OverlayDriver.UPPER_DIR,
          filesystem.pathJoin target filesystem.OverlayDriver.WORK_DIR].filter
          (fun p => ! pathExists p)).map filesystem.FsEffect.create_dir)
    ∧ ((filesystem.OverlayDriver.mount_run
        (filesystem.OverlayDriver.mk layers target handle) pathExists).1.filter
        filesystem.FsEffect.isKernelMount
      = [filesystem.FsEffect.kernel_mount
          (filesystem.OverlayDriver.overlayMountOf layers target)])
    ∧ ((filesystem.OverlayDriver.mount_run
        (filesystem.OverlayDriver.mk layers target handle) pathExists).1.getLast?
      = some (filesystem.FsEffect.kernel_mount
          (filesystem.OverlayDriver.overlayMountOf layers target)))
    ∧ filesystem.OverlayDriver.overlayMountOf layers target
      = { source := "overlay"
          mountpoint := filesystem.pathJoin target "merge"
          fstype := "overlay"
          flags := [filesystem.MountFlag.NOSUID]
          data := some ("lowerdir=" ++ String.intercalate ":" layers
            ++ ",upperdir=" ++ filesystem.pathJoin target "upper"
            ++ ",workdir=" ++ filesystem.pathJoin target "workdir") } := by
  refine ⟨?_, ?_, ?_, rfl⟩ <;>
    simp only [filesystem.OverlayDriver.mount_run] <;>
    split_ifs <;>
    simp_all [filesystem.FsEffect.isCreateDir, filesystem.FsEffect.isKernelMount,
      List.filter, List.getLast?_concat]

/-- C4: the claim holds of syscall::create_container (five namespace flags,
SIGCHLD, 4 MiB stack) but not of the supervisor clone it also cites:
Container::clone_flags includes CLONE_NEWUSER, and Container::start passes
an 8 MiB stack and no child-exit signal. -/
theorem C4_container_clone_includes_NEWUSER :
    Container.clone_flags &&& CLONE_NEWUSER = CLONE_NEWUSER
    ∧ Container.startCloneSpec.stackSize = 8 * 1024 * 1024
    ∧ Container.startCloneSpec.exitSignal = none := by
  refine ⟨?_, rfl, rfl⟩
  decide

/-- C4 (amended): syscall::create_container clones with exactly the five
namespace flags NEWNS, NEWUTS, NEWIPC, NEWPID, NEWNET (CLONE_NEWUSER is not
among them) plus a SIGCHLD child-exit signal and a 4 MiB stack; the
Container supervisor clone in Container::start instead uses those five
flags plus CLONE_NEWUSER, no exit signal, and an 8 MiB stack. -/
theorem C4_clone_specs :
    syscall.create_container
      = { stackSize := 4 * 1024 * 1024
          flags := CLONE_NEWNS ||| CLONE_NEWUTS ||| CLONE_NEWIPC |||
            CLONE_NEWPID ||| CLONE_NEWNET
          exitSignal := some Signal.SIGCHLD }
    ∧ syscall.create_container.flags &&& CLONE_NEWUSER = 0
    ∧ Container.startCloneSpec
      = { stackSize := 8 * 1024 * 1024
          flags := syscall.create_container_clone_flags ||| CLONE_NEWUSER
          exitSignal := none } := by
  refine ⟨rfl, ?_, rfl⟩
  decide

/-- C6: Container::exec does not prepend the command as argv[0]: at a
concrete NUL-free command its execvpe argv is the user argument list alone,
which differs from the command-prepended argv the claim requires. -/
theorem C6_container_exec_argv_lacks_argv0 :
    Container.exec_call
        { command := "sh", args := ["-c", "ls"], env := [],
          exec_type := ipc.ExecType.REPLACE }
      = some { file := "sh", argv := ["-c", "ls"], env := [] }
    ∧ ¬ ((Container.exec_call
        { command := "sh", args := ["-c", "ls"], env := [],
          exec_type := ipc.ExecType.REPLACE }).map ExecCall.argv
      = some ("sh" :: ["-c", "ls"])) := by
  constructor
  · rfl
  · decide

/-- C6 (amended): on NUL-free input, syscall::exec passes argv with the
command prepended as argv[0] followed by the user arguments in order (both
FORK and REPLACE arms issue this same execvpe), while Container::exec
passes the user argument list alone as argv, without prepending. -/
theorem C6_exec_argv (c : ipc.Command) (h : c.hasInteriorNul = false) :
    syscall.exec_call c
      = some { file := c.command, argv := c.command :: c.args, env := c.env }
    ∧ Container.exec_call c
      = some { file := c.command, argv := c.args, env := c.env } := by
  have h' := h
  simp only [ipc.Command.hasInteriorNul, Bool.or_eq_false_iff] at h'
  obtain ⟨⟨h1, h2⟩, h3⟩ := h'
  constructor <;>
    simp [syscall.exec_call, Container.exec_call, cstringNew, cstringList_eq,
      h1, h2, h3]

/-- C6 witness: the amended theorem applied at a concrete NUL-free command. -/
theorem C6_exec_argv_witness :
    ( { command := "sh", args := ["-c"], env := ["A=1"],
        exec_type := ipc.ExecType.FORK } : ipc.Command).hasInteriorNul = false
    ∧ syscall.exec_call
        { command := "sh", args := ["-c"], env := ["A=1"],
          exec_type := ipc.ExecType.FORK }
      = some { file := "sh", argv := ["sh", "-c"], env := ["A=1"] }
    ∧ Container.exec_call
        { command := "sh", args := ["-c"], env := ["A=1"],
          exec_type := ipc.ExecType.FORK }
      = some { file := "sh", argv := ["-c"], env := ["A=1"] } := by
  have h := C6_exec_argv
    { command := "sh", args := ["-c"], env := ["A=1"],
      exec_type := ipc.ExecType.FORK } (by decide)
  exact ⟨by decide, h.1, h.2⟩

/-- C10: for every Command, each exec path reaches its execvpe call (the
conversions cannot fail) exactly when no string of the command, of the
arguments or of the environment contains a NUL byte; when one does, the
unwrapped CString conversion panics, modelled by the none result. -/
theorem C10_exec_nul_panics (c : ipc.Command) :
    (syscall.exec_call c).isNone = c.hasInteriorNul
    ∧ (Container.exec_call c).isNone = c.hasInteriorNul := by
  cases h1 : containsNul c.command <;>
    cases h2 : c.args.any containsNul <;>
    cases h3 : c.env.any containsNul <;>
    constructor <;>
    simp [syscall.exec_call, Container.exec_call, cstringNew, cstringList_eq,
      ipc.Command.hasInteriorNul, h1, h2, h3]

/-- C7: UserInfo::from_name does not return an error for a name missing
from the user database: it dereferences the NULL pointer getpwnam returns.
Evaluated at the failing input, on the empty database and on a database
holding only root, looking up nosuchuser reaches the NULL dereference. -/
theorem C7_from_name_missing_user_derefs_null :
    UserInfo.from_name (fun _ => none) "nosuchuser"
      = FromNameResult.nullPointerDeref
    ∧ UserInfo.from_name
        (fun n => if n = "root"
          then some { pw_name := "root", pw_passwd := "x", pw_uid := 0,
                      pw_gid := 0, pw_gecos := "root", pw_dir := "/root",
                      pw_shell := "/bin/sh" }
          else none) "nosuchuser"
      = FromNameResult.nullPointerDeref := by
  constructor
  · rfl
  · simp [UserInfo.from_name, containsNul]

/-- C8: with container ID 0123456789abcdeffedcba9876543210 and no hostname
option, the hostname is the first 12 characters 0123456789ab, not the
string 012345678901 the claim states. -/
theorem C8_hostname_first12_is_not_012345678901 :
    (runtime.Runtime.new "0123456789abcdeffedcba9876543210"
        runtime.RuntimeOptions.default).hostname = "0123456789ab"
    ∧ ¬ ((runtime.Runtime.new "0123456789abcdeffedcba9876543210"
        runtime.RuntimeOptions.default).hostname = "012345678901") := by
  constructor
  · rfl
  · decide

/-- C8 (amended): with that container ID and no hostname option, the
effective hostname is 0123456789ab, the first 12 characters of the ID, and
setup_hostname sets the hostname and writes exactly it as the content of
/etc/hostname. -/
theorem C8_hostname_default :
    (runtime.Runtime.new "0123456789abcdeffedcba9876543210"
        runtime.RuntimeOptions.default).hostname = "0123456789ab"
    ∧ (runtime.Runtime.new "0123456789abcdeffedcba9876543210"
        runtime.RuntimeOptions.default).hostname
      = String.mk (("0123456789abcdeffedcba9876543210" : String).data.take 12)
    ∧ (runtime.Runtime.new "0123456789abcdeffedcba9876543210"
        runtime.RuntimeOptions.default).setup_hostname
      = [runtime.HostnameEffect.sethostname "0123456789ab",
         runtime.HostnameEffect.write_file "/etc/hostname" "0123456789ab"] := by
  refine ⟨rfl, rfl, rfl⟩

/-- C9: for every runtime state, user record and user-supplied environment
E, the environment handed to syscall::exec is E unchanged followed by
exactly the seven injected entries, in order; the other Command fields pass
through exec_command unchanged. -/
theorem C9_injected_env (r : runtime.Runtime) (info : UserInfo)
    (E : List String) :
    r.inject_env_variables info E
      = E ++ ["container=libcontainer-rs",
              "container_uuid=" ++ r.id,
              "HOME=" ++ info.home,
              "SHELL=" ++ info.shell,
              "USER=root",
              "HOSTNAME=" ++ r.hostname,
              "PATH=/usr/local/sbin:/usr/local/bin:/usr/sbin:/usr/bin:/sbin:/bin"]
    ∧ ∀ c : ipc.Command,
        (r.exec_command info c).env
          = c.env ++ ["container=libcontainer-rs",
              "container_uuid=" ++ r.id,
              "HOME=" ++ info.home,
              "SHELL=" ++ info.shell,
              "USER=root",
              "HOSTNAME=" ++ r.hostname,
              "PATH=/usr/local/sbin:/usr/local/bin:/usr/sbin:/usr/bin:/sbin:/bin"]
        ∧ (r.exec_command info c).command = c.command
        ∧ (r.exec_command info c).args = c.args
        ∧ (r.exec_command info c).exec_type = c.exec_type := by
  constructor
  · simp [runtime.Runtime.inject_env_variables, runtime.formatKV,
      List.concat_eq_append, List.append_assoc]
  · intro c
    refine ⟨?_, rfl, rfl, rfl⟩
    simp [runtime.Runtime.exec_command, runtime.Runtime.inject_env_variables,
      runtime.formatKV, List.concat_eq_append, List.append_assoc]

end LibContainer
